import Mathlib

/-!
Shallow embedding of the asteroid-impact-simulator repository.

Numeric code (JavaScript / TypeScript) is modelled over the real numbers:
JS number literals become rational literals in ℝ, Math.sqrt becomes
Real.sqrt, Math.pow with a non-integer exponent becomes Real.rpow,
Math.log10 becomes Real.logb 10, Math.sin / Math.cos / Math.acos become
Real.sin / Real.cos / Real.arccos, Math.atan2 becomes the complex
argument, Math.round x becomes the floor of x + 1/2, and Math.ceil
becomes Int.ceil.  Conditionals on real-valued comparisons use classical
decidability.

Embedded sources:
* api/src/services/physicsEngine.js (namespace PhysicsEngine),
* api/src/services/populationService.js (namespace PopulationService),
* web/src/utils/orbitalMechanics.ts (namespace OrbitalMechanics),
* the 3D simulation engine class file (namespace Sim3D).
-/

open Classical

namespace PhysicsEngine

/-- Gravitational constant, from the PhysicsEngine constructor. -/
def G : ℝ := 6.67430e-11

/-- Earth mass in kg, from the PhysicsEngine constructor. -/
def EARTH_MASS : ℝ := 5.972e24

/-- Earth radius in meters, from the PhysicsEngine constructor. -/
def EARTH_RADIUS : ℝ := 6371000

/-- Surface gravity in m/s^2, from the PhysicsEngine constructor. -/
def EARTH_SURFACE_GRAVITY : ℝ := 9.81

/-- Default asteroid density in kg/m^3, from the PhysicsEngine constructor. -/
def DEFAULT_ASTEROID_DENSITY : ℝ := 3000

/-- calculateMass(diameter, density): spherical mass from diameter. -/
noncomputable def calculateMass (diameter density : ℝ) : ℝ :=
  let radius := diameter / 2
  let volume := (4 / 3) * Real.pi * radius ^ (3 : ℕ)
  volume * density

/-- calculateImpactVelocity(initialVelocity, angle): combines the initial
velocity with the escape velocity gained falling to Earth. -/
noncomputable def calculateImpactVelocity (initialVelocity angle : ℝ) : ℝ :=
  let escapeVelocity := Real.sqrt (2 * G * EARTH_MASS / EARTH_RADIUS)
  let angleRad := angle * Real.pi / 180
  let verticalComponent := initialVelocity * Real.sin angleRad
  let horizontalComponent := initialVelocity * Real.cos angleRad
  let finalVertical :=
    Real.sqrt (verticalComponent * verticalComponent + escapeVelocity * escapeVelocity)
  Real.sqrt (finalVertical * finalVertical + horizontalComponent * horizontalComponent)

/-- The escape velocity constant used inside calculateImpactVelocity. -/
noncomputable def escapeVelocity : ℝ := Real.sqrt (2 * G * EARTH_MASS / EARTH_RADIUS)

/-- Deflection method selector, the method strings accepted by
calculateDeflection. -/
inductive DeflectionMethod where
  | kinetic
  | gravity
  | nuclear

/-- Return record of calculateDeflection.  The boolean field feasible is
modelled as a proposition over the exact real values. -/
structure DeflectionResult where
  method : DeflectionMethod
  description : String
  requiredDeltaV : ℝ
  impactorMass : ℝ
  feasible : Prop
  warningTimeNeeded : ℝ
  successProbability : ℝ

/-- calculateDeflection(params): required delta-v, impactor mass,
feasibility and success probability of a deflection attempt. -/
noncomputable def calculateDeflection (asteroidMass warningTime missDistance : ℝ)
    (method : DeflectionMethod) : DeflectionResult :=
  let warningTimeSeconds := warningTime * 24 * 3600
  let requiredDeltaV := missDistance * 1000 / warningTimeSeconds
  let efficiency : ℝ :=
    match method with
    | .kinetic => 0.5
    | .gravity => 0.01
    | .nuclear => 10
  let description :=
    match method with
    | .kinetic => "Kinetic Impactor: High-speed spacecraft collision"
    | .gravity => "Gravity Tractor: Spacecraft gravitational pull"
    | .nuclear => "Nuclear Deflection: Standoff nuclear detonation"
  let impactorMass := asteroidMass * requiredDeltaV / (efficiency * 1000)
  { method := method
    description := description
    requiredDeltaV := requiredDeltaV
    impactorMass := impactorMass
    feasible := warningTime > 30 ∧ impactorMass < 50000
    warningTimeNeeded := ((⌈missDistance * 1000 * asteroidMass / (efficiency * 1000 * 100)⌉ : ℤ) : ℝ)
    successProbability :=
      if warningTime > 365 then 0.9
      else if warningTime > 180 then 0.7
      else if warningTime > 90 then 0.5
      else 0.2 }

/-- Return record of calculateImpactEnergy. -/
structure Energy where
  joules : ℝ
  tntTons : ℝ
  megatons : ℝ

/-- calculateImpactEnergy(mass, velocity): kinetic energy and TNT
equivalents. -/
noncomputable def calculateImpactEnergy (mass velocity : ℝ) : Energy :=
  let energyJoules := 0.5 * mass * velocity * velocity
  let tntTons := energyJoules / 4.184e9
  let tntMegatons := tntTons / 1e6
  { joules := energyJoules, tntTons := tntTons, megatons := tntMegatons }

/-- Return record of calculateCraterSize. -/
structure Crater where
  diameter : ℝ
  depth : ℝ
  volume : ℝ

set_option linter.unusedVariables false in
/-- calculateCraterSize(energy, angle, targetDensity): crater scaling law.
The targetDensity parameter is accepted and unused, as in the source. -/
noncomputable def calculateCraterSize (energy : ℝ) (angle : ℝ := 45)
    (targetDensity : ℝ := 2500) : Crater :=
  let angleRad := angle * Real.pi / 180
  let baseDiameter := 1.8 * (energy / 1e15) ^ (0.25 : ℝ)
  let angleFactor := Real.sin angleRad ^ ((1 : ℝ) / 3)
  let diameter := baseDiameter * angleFactor
  let depth := diameter / 5
  { diameter := diameter
    depth := depth
    volume := Real.pi * (diameter / 2) ^ (2 : ℕ) * depth / 3 }

/-- Return record of calculateSeismicEffects. -/
structure Seismic where
  magnitude : ℝ
  description : String
  radiusKm : ℝ

/-- calculateSeismicEffects(energy): Richter magnitude estimate.  The
returned magnitude is floored at 0, while radiusKm uses the raw value. -/
noncomputable def calculateSeismicEffects (energy : ℝ) : Seismic :=
  let magnitude := 2 / 3 * Real.logb 10 energy - 4.8
  let description :=
    if magnitude < 4 then "Minor - Often felt, but rarely causes damage"
    else if magnitude < 5 then "Light - Noticeable shaking, minor damage"
    else if magnitude < 6 then "Moderate - Can cause damage to buildings"
    else if magnitude < 7 then "Strong - Major damage in populated areas"
    else if magnitude < 8 then "Major - Serious damage over large areas"
    else "Great - Catastrophic destruction"
  { magnitude := max 0 magnitude
    description := description
    radiusKm := (10 : ℝ) ^ (magnitude - 1) }

/-- Return record of calculateBlastRadius. -/
structure Blast where
  fireball : ℝ
  radiationRadius : ℝ
  airblastRadius : ℝ
  thermalRadius : ℝ

/-- calculateBlastRadius(energy): blast zone radii. -/
noncomputable def calculateBlastRadius (energy : ℝ) : Blast :=
  let megatons := energy / 4.184e15
  { fireball := 40 * megatons ^ (0.33 : ℝ)
    radiationRadius := 200 * megatons ^ (0.41 : ℝ)
    airblastRadius := 350 * megatons ^ (0.33 : ℝ)
    thermalRadius := 500 * megatons ^ (0.41 : ℝ) }

/-- Return record of calculateTsunamiEffects. -/
structure Tsunami where
  initialWaveHeight : ℝ
  wavelength : ℝ
  propagationSpeed : ℝ
  speedKmh : ℝ
  affectedRadiusKm : ℝ

/-- calculateTsunamiEffects(energy, waterDepth): ocean impact wave model. -/
noncomputable def calculateTsunamiEffects (energy : ℝ) (waterDepth : ℝ := 4000) : Tsunami :=
  let megatons := energy / 4.184e15
  let waveHeight := Real.sqrt megatons * 10
  let wavelength := waterDepth * 50
  let speed := Real.sqrt (EARTH_SURFACE_GRAVITY * waterDepth)
  { initialWaveHeight := waveHeight
    wavelength := wavelength
    propagationSpeed := speed
    speedKmh := speed * 3.6
    affectedRadiusKm := megatons * 100 }

/-- Impact location record used by simulateImpact. -/
structure ImpactLocation where
  lat : ℝ
  lon : ℝ
  isOcean : Bool
  depth : ℝ

/-- Parameter record of simulateImpact, with the source defaults. -/
structure ImpactParams where
  diameter : ℝ
  velocity : ℝ
  angle : ℝ := 45
  density : ℝ := DEFAULT_ASTEROID_DENSITY
  impactLocation : ImpactLocation := ⟨0, 0, false, 0⟩

/-- The asteroidProperties block of the simulateImpact result. -/
structure AsteroidProperties where
  diameter : ℝ
  mass : ℝ
  velocity : ℝ
  density : ℝ
  angle : ℝ

/-- Result record of simulateImpact.  The casualties component is produced
by the external population service and is abstracted by the type κ. -/
structure ImpactResult (κ : Type) where
  asteroidProperties : AsteroidProperties
  energy : Energy
  crater : Option Crater
  seismic : Seismic
  blast : Blast
  tsunami : Option Tsunami
  casualties : κ
  impactLocation : ImpactLocation

/-- simulateImpact(params): the full impact pipeline.  The
calculateCasualties argument abstracts the awaited population-service
call, which performs network requests and is outside this embedding. -/
noncomputable def simulateImpact {κ : Type}
    (calculateCasualties : Blast → ImpactLocation → Option Crater → κ)
    (params : ImpactParams) : ImpactResult κ :=
  let mass := calculateMass params.diameter params.density
  let finalVelocity := calculateImpactVelocity params.velocity params.angle
  let energy := calculateImpactEnergy mass finalVelocity
  let crater :=
    if !params.impactLocation.isOcean then
      some (calculateCraterSize energy.joules params.angle)
    else none
  let seismic := calculateSeismicEffects energy.joules
  let blast := calculateBlastRadius energy.joules
  let tsunami :=
    if params.impactLocation.isOcean then
      some (calculateTsunamiEffects energy.joules params.impactLocation.depth)
    else none
  let casualties := calculateCasualties blast params.impactLocation crater
  { asteroidProperties :=
      { diameter := params.diameter
        mass := mass
        velocity := finalVelocity
        density := params.density
        angle := params.angle }
    energy := energy
    crater := crater
    seismic := seismic
    blast := blast
    tsunami := tsunami
    casualties := casualties
    impactLocation := params.impactLocation }

/-- The asteroid mass of the C1 scenario: 140 m diameter at the default
3000 kg/m^3 density. -/
noncomputable def scenarioMass : ℝ := calculateMass 140 3000

/-- A land impact location (isOcean = false). -/
def landLocation : ImpactLocation := ⟨0, 0, false, 0⟩

/-- The crater component of the impact pipeline on a land impact at the
default density, as a function of diameter, velocity and angle. -/
noncomputable def pipelineCrater (diameter velocity angle : ℝ) : Option Crater :=
  (simulateImpact (fun _ _ _ => ())
    { diameter := diameter
      velocity := velocity
      angle := angle
      density := 3000
      impactLocation := landLocation }).crater

end PhysicsEngine

namespace OrbitalMechanics

/-- The Newton-Raphson loop body of solveKeplerEquation, with the
convergence break; the Nat argument counts remaining loop iterations. -/
noncomputable def keplerLoop (meanAnomaly eccentricity : ℝ) : Nat → ℝ → ℝ
  | 0, E => E
  | n + 1, E =>
    let f := E - eccentricity * Real.sin E - meanAnomaly
    let df := 1 - eccentricity * Real.cos E
    let deltaE := f / df
    let Enext := E - deltaE
    if |deltaE| < 1e-8 then Enext else keplerLoop meanAnomaly eccentricity n Enext

/-- solveKeplerEquation(meanAnomaly, eccentricity): Newton-Raphson with
initial guess E = meanAnomaly, tolerance 1e-8, at most 20 iterations. -/
noncomputable def solveKeplerEquation (meanAnomaly eccentricity : ℝ) : ℝ :=
  keplerLoop meanAnomaly eccentricity 20 meanAnomaly

end OrbitalMechanics

namespace Sim3D

/-- Gravitational constant in km^3/kg/s^2, from the simulation engine. -/
noncomputable def G : ℝ := 6.6743e-11 / (1000 : ℝ) ^ (3 : ℕ)

/-- 3D vector record. -/
structure Vector3D where
  x : ℝ
  y : ℝ
  z : ℝ

/-- Euclidean norm, the private magnitude method. -/
noncomputable def magnitude (v : Vector3D) : ℝ :=
  Real.sqrt (v.x * v.x + v.y * v.y + v.z * v.z)

/-- Earth state record. -/
structure Earth where
  position : Vector3D
  radiusKm : ℝ
  massKg : ℝ
  omega : ℝ
  rotation : ℝ

/-- The Earth constructor with its literal field values. -/
noncomputable def Earth.make (position : Vector3D) : Earth :=
  { position := position
    radiusKm := 6371
    massKg := 5.972e24
    omega := 2 * Real.pi / 86164
    rotation := 0 }

/-- Asteroid state record. -/
structure Asteroid where
  position : Vector3D
  velocity : Vector3D
  acceleration : Vector3D
  radiusKm : ℝ
  massKg : ℝ
  positions : List Vector3D

/-- Asteroid.updateAcceleration(earth): the gravitational acceleration the
method stores, zero when the separation magnitude is not positive. -/
noncomputable def Asteroid.updateAcceleration (a : Asteroid) (earth : Earth) : Vector3D :=
  let rVec : Vector3D :=
    { x := earth.position.x - a.position.x
      y := earth.position.y - a.position.y
      z := earth.position.z - a.position.z }
  let rMag := magnitude rVec
  if rMag > 0 then
    let factor := G * earth.massKg / rMag ^ (3 : ℕ)
    { x := factor * rVec.x, y := factor * rVec.y, z := factor * rVec.z }
  else
    { x := 0, y := 0, z := 0 }

/-- Asteroid.getDistance(point). -/
noncomputable def Asteroid.getDistance (a : Asteroid) (point : Vector3D) : ℝ :=
  magnitude
    { x := a.position.x - point.x
      y := a.position.y - point.y
      z := a.position.z - point.z }

/-- Collision report record. -/
structure CollisionInfo where
  latitude : ℝ
  longitude : ℝ
  impactAngle : ℝ
  location : String
  timeToImpact : ℝ

/-- Math.atan2(y, x), via the complex argument. -/
noncomputable def atan2 (y x : ℝ) : ℝ := Complex.arg ⟨x, y⟩

/-- The JS remainder operator on reals: truncated-division remainder. -/
noncomputable def jsRem (a b : ℝ) : ℝ :=
  if 0 ≤ a / b then a - b * (⌊a / b⌋ : ℝ) else a - b * (⌈a / b⌉ : ℝ)

/-- The CollisionInfo record built inside checkCollisions for a colliding
asteroid. -/
noncomputable def collisionInfoFor (earth : Earth) (totalTime : ℝ) (a : Asteroid) :
    CollisionInfo :=
  let posMag := magnitude a.position
  let velMag := magnitude a.velocity
  let dotProduct :=
    a.position.x * a.velocity.x + a.position.y * a.velocity.y + a.position.z * a.velocity.z
  let angleRad := Real.arccos (dotProduct / (posMag * velMag))
  let impactAngle := angleRad * 180 / Real.pi - 90
  let latitude := 90 - Real.arccos (a.position.z / posMag) * 180 / Real.pi
  let longitude :=
    jsRem (atan2 a.position.y a.position.x * 180 / Real.pi
      - earth.rotation * 180 / Real.pi) 360
  { latitude := latitude
    longitude := longitude
    impactAngle := impactAngle
    location := "To be determined"
    timeToImpact := totalTime }

/-- AsteroidSimulation3D.checkCollisions: the first asteroid whose centre
distance to Earth is at most the sum of the radii produces a collision
report; otherwise none. -/
noncomputable def checkCollisions (earth : Earth) (totalTime : ℝ) :
    List Asteroid → Option CollisionInfo
  | [] => none
  | a :: rest =>
    if a.getDistance earth.position ≤ earth.radiusKm + a.radiusKm then
      some (collisionInfoFor earth totalTime a)
    else checkCollisions earth totalTime rest

end Sim3D

namespace PopulationService

/-- calculateOverlapArea(distance, blastRadius, cityRadius): area of the
intersection of the blast disc and the city disc. -/
noncomputable def calculateOverlapArea (distance blastRadius cityRadius : ℝ) : ℝ :=
  if distance = 0 then Real.pi * min blastRadius cityRadius ^ (2 : ℕ)
  else if distance ≥ blastRadius + cityRadius then 0
  else if distance + cityRadius ≤ blastRadius then Real.pi * cityRadius * cityRadius
  else if distance + blastRadius ≤ cityRadius then Real.pi * blastRadius * blastRadius
  else
    let d := distance
    let r1 := blastRadius
    let r2 := cityRadius
    let part1 := r1 * r1 * Real.arccos ((d * d + r1 * r1 - r2 * r2) / (2 * d * r1))
    let part2 := r2 * r2 * Real.arccos ((d * d + r2 * r2 - r1 * r1) / (2 * d * r2))
    let part3 :=
      0.5 * Real.sqrt ((-d + r1 + r2) * (d + r1 - r2) * (d - r1 + r2) * (d + r1 + r2))
    part1 + part2 - part3

/-- Math.round on reals: floor of x + 1/2. -/
noncomputable def jsRound (x : ℝ) : ℝ := (⌊x + 1 / 2⌋ : ℤ)

/-- The per-city affected population computed inside getPopulationInRadius:
the overlap area times the city density population / (pi r^2), rounded. -/
noncomputable def cityAffectedPopulation (distance radiusKm population cityRadius : ℝ) : ℝ :=
  let cityArea := Real.pi * cityRadius * cityRadius
  let cityDensity := population / cityArea
  let overlapArea := calculateOverlapArea distance radiusKm cityRadius
  jsRound (overlapArea * cityDensity)

end PopulationService

namespace PhysicsEngine

lemma escapeVelocity_pos : 0 < escapeVelocity := by
  have h : (0 : ℝ) < 2 * G * EARTH_MASS / EARTH_RADIUS := by
    unfold G EARTH_MASS EARTH_RADIUS; norm_num
  exact Real.sqrt_pos.mpr h

/-- The squared impact velocity collapses to initial speed squared plus
escape velocity squared: the angle decomposition cancels. -/
lemma calculateImpactVelocity_eq (v angle : ℝ) :
    calculateImpactVelocity v angle = Real.sqrt (v ^ 2 + escapeVelocity ^ 2) := by
  unfold calculateImpactVelocity escapeVelocity
  set e := Real.sqrt (2 * G * EARTH_MASS / EARTH_RADIUS) with he
  have hnn : (0 : ℝ) ≤ v * Real.sin (angle * Real.pi / 180) * (v * Real.sin (angle * Real.pi / 180)) + e * e := by
    nlinarith [mul_self_nonneg (v * Real.sin (angle * Real.pi / 180)), mul_self_nonneg e]
  have hsq := Real.mul_self_sqrt hnn
  have hpyth := Real.sin_sq_add_cos_sq (angle * Real.pi / 180)
  dsimp only
  rw [hsq]
  congr 1
  nlinarith [hpyth]

lemma calculateImpactVelocity_sq (v angle : ℝ) :
    calculateImpactVelocity v angle * calculateImpactVelocity v angle
      = v ^ 2 + escapeVelocity ^ 2 := by
  rw [calculateImpactVelocity_eq]
  exact Real.mul_self_sqrt (by positivity)

lemma calculateImpactEnergy_joules (mass velocity : ℝ) :
    (calculateImpactEnergy mass velocity).joules = 0.5 * mass * velocity * velocity := rfl

lemma scenarioMass_eq : scenarioMass = 1372000000 * Real.pi := by
  unfold scenarioMass calculateMass
  dsimp only
  ring

lemma scenario_impactorMass_large :
    (50000 : ℝ) ≤ (calculateDeflection scenarioMass 3650 6400 .kinetic).impactorMass := by
  have hπ := Real.pi_gt_three
  simp only [calculateDeflection, scenarioMass_eq]
  rw [le_div_iff₀ (by norm_num)]
  nlinarith [hπ]

/-- The joules component of the pipeline, in closed form. -/
lemma simulateImpact_joules {κ : Type}
    (cas : Blast → ImpactLocation → Option Crater → κ) (p : ImpactParams) :
    (simulateImpact cas p).energy.joules
      = 0.5 * calculateMass p.diameter p.density
          * (p.velocity ^ 2 + escapeVelocity ^ 2) := by
  show (calculateImpactEnergy (calculateMass p.diameter p.density)
      (calculateImpactVelocity p.velocity p.angle)).joules = _
  rw [calculateImpactEnergy_joules]
  have h := calculateImpactVelocity_sq p.velocity p.angle
  linear_combination (0.5 * calculateMass p.diameter p.density) * h

end PhysicsEngine

/-- C1 counterexample: in the deflection scenario warningTimeDays = 3650,
method = kinetic, missDistance = 6400 km, asteroidDiameter = 140 m at the
default density 3000 kg/m^3, the code does NOT return successProbability
0.9 together with feasible: the impactor mass is about 175000 kg, which
is not below the 50000 kg feasibility bound, so feasible is false. -/
theorem calculateDeflection_scenario_claim_false :
    ¬ ((PhysicsEngine.calculateDeflection PhysicsEngine.scenarioMass 3650 6400
          PhysicsEngine.DeflectionMethod.kinetic).successProbability = 0.9 ∧
       (PhysicsEngine.calculateDeflection PhysicsEngine.scenarioMass 3650 6400
          PhysicsEngine.DeflectionMethod.kinetic).feasible) := by
  rintro ⟨-, hfeas⟩
  have hbig := PhysicsEngine.scenario_impactorMass_large
  have hsmall : (PhysicsEngine.calculateDeflection PhysicsEngine.scenarioMass 3650 6400
      PhysicsEngine.DeflectionMethod.kinetic).impactorMass < 50000 := by
    simpa only [PhysicsEngine.calculateDeflection] using
      (by simpa only [PhysicsEngine.calculateDeflection] using hfeas : _ ∧ _).2
  linarith

/-- C1 amended: in the same deflection scenario the code returns
successProbability = 0.9 (warning time 3650 days exceeds 365), but
feasible is false, because the required impactor mass reaches about
175000 kg and is not below 50000 kg. -/
theorem calculateDeflection_scenario_values :
    (PhysicsEngine.calculateDeflection PhysicsEngine.scenarioMass 3650 6400
        PhysicsEngine.DeflectionMethod.kinetic).successProbability = 0.9 ∧
      ¬ (PhysicsEngine.calculateDeflection PhysicsEngine.scenarioMass 3650 6400
          PhysicsEngine.DeflectionMethod.kinetic).feasible := by
  constructor
  · simp only [PhysicsEngine.calculateDeflection]
    rw [if_pos (by norm_num)]
  · rintro ⟨-, hsm⟩
    have hbig := PhysicsEngine.scenario_impactorMass_large
    have hsmall : (PhysicsEngine.calculateDeflection PhysicsEngine.scenarioMass 3650 6400
        PhysicsEngine.DeflectionMethod.kinetic).impactorMass < 50000 := by
      simpa only [PhysicsEngine.calculateDeflection] using hsm
    linarith

/-- C9: for every initial velocity v with 0 ≤ v and every angle, the value
of calculateImpactVelocity is the square root of v squared plus the square
of the escape velocity, hence it does not depend on the angle argument. -/
theorem calculateImpactVelocity_angle_independent (v angle : ℝ) (_hv : 0 ≤ v) :
    PhysicsEngine.calculateImpactVelocity v angle
      = Real.sqrt (v ^ 2 + PhysicsEngine.escapeVelocity ^ 2) :=
  PhysicsEngine.calculateImpactVelocity_eq v angle

/-- C9 witness: the theorem applied at the concrete input v = 3, angle = 77. -/
theorem calculateImpactVelocity_angle_independent_witness :
    (0 : ℝ) ≤ 3 ∧
      PhysicsEngine.calculateImpactVelocity 3 77
        = Real.sqrt ((3 : ℝ) ^ 2 + PhysicsEngine.escapeVelocity ^ 2) :=
  ⟨by norm_num, calculateImpactVelocity_angle_independent 3 77 (by norm_num)⟩

/-- C7: in every impact simulation the crater field is present exactly
when the impact location is not ocean, and the tsunami field is present
exactly when it is ocean; the inapplicable field is none. -/
theorem crater_tsunami_presence {κ : Type}
    (cas : PhysicsEngine.Blast → PhysicsEngine.ImpactLocation →
      Option PhysicsEngine.Crater → κ)
    (p : PhysicsEngine.ImpactParams) :
    ((PhysicsEngine.simulateImpact cas p).crater.isSome
        ↔ p.impactLocation.isOcean = false) ∧
      ((PhysicsEngine.simulateImpact cas p).tsunami.isSome
        ↔ p.impactLocation.isOcean = true) := by
  cases h : p.impactLocation.isOcean <;>
    simp [PhysicsEngine.simulateImpact, h]

/-- C2 counterexample: at impact energy E = 10^12 joules the seismic stage
does not return the claimed pair (magnitude by 0.67·log10(E) − 5.87
floored at 0, radius from the floored magnitude): the code magnitude is
(2/3)·12 − 4.8 = 3.2 while the claimed formula gives 2.17. -/
theorem calculateSeismicEffects_claimed_formula_false :
    ¬ ((PhysicsEngine.calculateSeismicEffects 1e12).magnitude
          = max 0 (0.67 * Real.logb 10 1e12 - 5.87) ∧
        (PhysicsEngine.calculateSeismicEffects 1e12).radiusKm
          = (10 : ℝ) ^ (max 0 (0.67 * Real.logb 10 1e12 - 5.87) - 1)) := by
  have h1 : Real.logb 10 ((10 : ℝ) ^ ((12 : ℕ) : ℝ)) = ((12 : ℕ) : ℝ) :=
    Real.logb_rpow (by norm_num) (by norm_num)
  have h2 : ((10 : ℝ) ^ ((12 : ℕ) : ℝ)) = 1e12 := by
    rw [Real.rpow_natCast]; norm_num
  have hlog : Real.logb 10 (1e12 : ℝ) = 12 := by
    rw [← h2, h1]; norm_num
  rintro ⟨hmag, -⟩
  rw [PhysicsEngine.calculateSeismicEffects] at hmag
  simp only [hlog] at hmag
  rw [max_eq_right (by norm_num), max_eq_right (by norm_num)] at hmag
  norm_num at hmag

/-- C2 amended: for every positive energy E the seismic stage returns
magnitude = max(0, (2/3)·log10(E) − 4.8), and radiusKm = 10^(m − 1) where
m = (2/3)·log10(E) − 4.8 is the raw, unfloored magnitude. -/
theorem calculateSeismicEffects_formula (E : ℝ) (_hE : 0 < E) :
    (PhysicsEngine.calculateSeismicEffects E).magnitude
        = max 0 (2 / 3 * Real.logb 10 E - 4.8) ∧
      (PhysicsEngine.calculateSeismicEffects E).radiusKm
        = (10 : ℝ) ^ (2 / 3 * Real.logb 10 E - 4.8 - 1) := by
  constructor <;> rfl

/-- C2 witness: the amended theorem applied at E = 10^15 joules. -/
theorem calculateSeismicEffects_formula_witness :
    (0 : ℝ) < 1e15 ∧
      ((PhysicsEngine.calculateSeismicEffects 1e15).magnitude
          = max 0 (2 / 3 * Real.logb 10 1e15 - 4.8) ∧
        (PhysicsEngine.calculateSeismicEffects 1e15).radiusKm
          = (10 : ℝ) ^ (2 / 3 * Real.logb 10 1e15 - 4.8 - 1)) :=
  ⟨by norm_num, calculateSeismicEffects_formula 1e15 (by norm_num)⟩

/-- C4: with angle, density and impact location fixed, the energy.joules
of the impact pipeline is strictly increasing in the diameter (for
0 < d1 < d2) and strictly increasing in the supplied velocity (for
0 ≤ v1 < v2). -/
theorem energy_joules_strict_mono {κ : Type}
    (cas : PhysicsEngine.Blast → PhysicsEngine.ImpactLocation →
      Option PhysicsEngine.Crater → κ)
    (angle density : ℝ) (loc : PhysicsEngine.ImpactLocation) (hρ : 0 < density) :
    (∀ v d₁ d₂, 0 < d₁ → d₁ < d₂ →
        (PhysicsEngine.simulateImpact cas ⟨d₁, v, angle, density, loc⟩).energy.joules
          < (PhysicsEngine.simulateImpact cas ⟨d₂, v, angle, density, loc⟩).energy.joules) ∧
      (∀ d v₁ v₂, 0 < d → 0 ≤ v₁ → v₁ < v₂ →
        (PhysicsEngine.simulateImpact cas ⟨d, v₁, angle, density, loc⟩).energy.joules
          < (PhysicsEngine.simulateImpact cas ⟨d, v₂, angle, density, loc⟩).energy.joules) := by
  have he2 : (0 : ℝ) < PhysicsEngine.escapeVelocity ^ 2 :=
    pow_pos PhysicsEngine.escapeVelocity_pos 2
  constructor
  · intro v d₁ d₂ hd₁ hd₁₂
    rw [PhysicsEngine.simulateImpact_joules, PhysicsEngine.simulateImpact_joules]
    have hS : (0 : ℝ) < v ^ 2 + PhysicsEngine.escapeVelocity ^ 2 := by
      nlinarith [sq_nonneg v]
    have hm : PhysicsEngine.calculateMass d₁ density
        < PhysicsEngine.calculateMass d₂ density := by
      unfold PhysicsEngine.calculateMass
      dsimp only
      have h3 : (d₁ / 2) ^ (3 : ℕ) < (d₂ / 2) ^ (3 : ℕ) := by
        have h12 : d₁ / 2 < d₂ / 2 := by linarith
        have h1nn : (0 : ℝ) ≤ d₁ / 2 := by linarith
        exact pow_lt_pow_left₀ h12 h1nn (by norm_num)
      have hπρ : (0 : ℝ) < Real.pi * density := mul_pos Real.pi_pos hρ
      nlinarith [h3, hπρ]
    nlinarith [hm, hS]
  · intro d v₁ v₂ hd hv₁ hv₁₂
    rw [PhysicsEngine.simulateImpact_joules, PhysicsEngine.simulateImpact_joules]
    have hmpos : (0 : ℝ) < PhysicsEngine.calculateMass d density := by
      unfold PhysicsEngine.calculateMass
      dsimp only
      positivity
    have hv2 : v₁ ^ 2 < v₂ ^ 2 := by nlinarith [hv₁, hv₁₂]
    nlinarith [hmpos, hv2]

/-- C4 witness: the theorem applied at concrete inputs: angle 45, density
3000, land location; diameters 1 < 2 at velocity 0, and velocities
0 < 100 at diameter 1. -/
theorem energy_joules_strict_mono_witness :
    ((PhysicsEngine.simulateImpact (fun _ _ _ => ())
        ⟨1, 0, 45, 3000, PhysicsEngine.landLocation⟩).energy.joules
      < (PhysicsEngine.simulateImpact (fun _ _ _ => ())
        ⟨2, 0, 45, 3000, PhysicsEngine.landLocation⟩).energy.joules) ∧
    ((PhysicsEngine.simulateImpact (fun _ _ _ => ())
        ⟨1, 0, 45, 3000, PhysicsEngine.landLocation⟩).energy.joules
      < (PhysicsEngine.simulateImpact (fun _ _ _ => ())
        ⟨1, 100, 45, 3000, PhysicsEngine.landLocation⟩).energy.joules) :=
  ⟨(energy_joules_strict_mono (fun _ _ _ => ()) 45 3000 PhysicsEngine.landLocation
      (by norm_num)).1 0 1 2 (by norm_num) (by norm_num),
   (energy_joules_strict_mono (fun _ _ _ => ()) 45 3000 PhysicsEngine.landLocation
      (by norm_num)).2 1 0 100 (by norm_num) (by norm_num) (by norm_num)⟩

/-- C5: with zero eccentricity the Newton-Raphson solver returns the mean
anomaly exactly: the first correction is (M − 0·sin M − M)/1 = 0, the
tolerance test passes, and the loop exits with E = M. -/
theorem solveKeplerEquation_zero_ecc (M : ℝ) :
    OrbitalMechanics.solveKeplerEquation M 0 = M := by
  show OrbitalMechanics.keplerLoop M 0 20 M = M
  rw [OrbitalMechanics.keplerLoop]
  norm_num

/-- C6: the collision test of the trajectory integrator reports a
collision exactly when some asteroid satisfies
distance(asteroid, Earth) ≤ R_earth + R_asteroid: the boundary case with
equality triggers a collision, and when every asteroid strictly exceeds
the sum no collision is reported. -/
theorem checkCollisions_iff (earth : Sim3D.Earth) (t : ℝ)
    (asteroids : List Sim3D.Asteroid) :
    (Sim3D.checkCollisions earth t asteroids).isSome
      ↔ ∃ a ∈ asteroids,
          a.getDistance earth.position ≤ earth.radiusKm + a.radiusKm := by
  induction asteroids with
  | nil => simp [Sim3D.checkCollisions]
  | cons a rest ih =>
    by_cases h : a.getDistance earth.position ≤ earth.radiusKm + a.radiusKm
    · simp [Sim3D.checkCollisions, h]
    · simp [Sim3D.checkCollisions, h, ih]

/-- C10: when the asteroid-to-Earth separation is exactly zero the
gravity update stores the zero acceleration vector instead of dividing by
the zero distance magnitude. -/
theorem updateAcceleration_zero_separation (a : Sim3D.Asteroid)
    (earth : Sim3D.Earth) (h : a.position = earth.position) :
    a.updateAcceleration earth = ⟨0, 0, 0⟩ := by
  unfold Sim3D.Asteroid.updateAcceleration
  have hm : Sim3D.magnitude
      ⟨earth.position.x - a.position.x, earth.position.y - a.position.y,
        earth.position.z - a.position.z⟩ = 0 := by
    rw [h]
    simp [Sim3D.magnitude]
  dsimp only
  rw [hm]
  norm_num

/-- C10 witness: the theorem applied to an asteroid placed exactly at the
Earth centre position. -/
theorem updateAcceleration_zero_separation_witness :
    Sim3D.Asteroid.updateAcceleration
        ⟨⟨1, 2, 3⟩, ⟨4, 5, 6⟩, ⟨0, 0, 0⟩, 1, 1e12, []⟩
        (Sim3D.Earth.make ⟨1, 2, 3⟩)
      = ⟨0, 0, 0⟩ :=
  updateAcceleration_zero_separation
    ⟨⟨1, 2, 3⟩, ⟨4, 5, 6⟩, ⟨0, 0, 0⟩, 1, 1e12, []⟩
    (Sim3D.Earth.make ⟨1, 2, 3⟩) rfl

lemma pipelineCrater_eq (d v angle : ℝ) :
    PhysicsEngine.pipelineCrater d v angle
      = some (PhysicsEngine.calculateCraterSize
          (PhysicsEngine.calculateImpactEnergy
            (PhysicsEngine.calculateMass d 3000)
            (PhysicsEngine.calculateImpactVelocity v angle)).joules angle) := by
  simp [PhysicsEngine.pipelineCrater, PhysicsEngine.simulateImpact,
    PhysicsEngine.landLocation]

lemma calculateCraterSize_diameter (E a : ℝ) :
    (PhysicsEngine.calculateCraterSize E a).diameter
      = 1.8 * (E / 1e15) ^ (0.25 : ℝ)
          * Real.sin (a * Real.pi / 180) ^ ((1 : ℝ) / 3) := rfl

lemma sin_ninety_deg : Real.sin ((90 : ℝ) * Real.pi / 180) = 1 := by
  rw [show (90 : ℝ) * Real.pi / 180 = Real.pi / 2 by ring]
  exact Real.sin_pi_div_two

lemma rpow_fourth_4096 : ((4096 : ℝ)) ^ (0.25 : ℝ) = 8 := by
  have h1 : ((4096 : ℝ)) = (2 : ℝ) ^ ((12 : ℕ) : ℝ) := by
    rw [Real.rpow_natCast]; norm_num
  rw [h1, ← Real.rpow_mul (by norm_num : (0 : ℝ) ≤ 2)]
  rw [show ((12 : ℕ) : ℝ) * (0.25 : ℝ) = ((3 : ℕ) : ℝ) by norm_num]
  rw [Real.rpow_natCast]
  norm_num

lemma rpow_sixteen_078 : ((16 : ℝ)) ^ (0.78 : ℝ) = (2 : ℝ) ^ (3.12 : ℝ) := by
  have h1 : ((16 : ℝ)) = (2 : ℝ) ^ ((4 : ℕ) : ℝ) := by
    rw [Real.rpow_natCast]; norm_num
  rw [h1, ← Real.rpow_mul (by norm_num : (0 : ℝ) ≤ 2)]
  norm_num

/-- C3 counterexample: no single constant k1 makes the crater diameter of
the land-impact pipeline equal to k1 · d^0.78 · v_kms^0.44 · sin(θ)^0.33:
the code diameter scales as d^(3/4) through the energy term, so comparing
d = 1 and d = 16 at v = 1000 m/s and θ = 90° forces 8 = 16^0.78, which is
false. -/
theorem crater_power_law_false :
    ¬ ∃ k1 : ℝ, ∀ d v angle : ℝ, 0 < d → 0 ≤ v → 0 < angle → angle ≤ 90 →
      ∀ c ∈ PhysicsEngine.pipelineCrater d v angle,
        c.diameter = k1 * d ^ (0.78 : ℝ) * (v / 1000) ^ (0.44 : ℝ)
          * Real.sin (angle * Real.pi / 180) ^ (0.33 : ℝ) := by
  rintro ⟨k1, h⟩
  have hS : (0 : ℝ) < 1000 ^ 2 + PhysicsEngine.escapeVelocity ^ 2 := by
    have := pow_pos PhysicsEngine.escapeVelocity_pos 2
    nlinarith
  have hfv2 := PhysicsEngine.calculateImpactVelocity_sq 1000 90
  have hJ : ∀ d : ℝ,
      (PhysicsEngine.calculateImpactEnergy (PhysicsEngine.calculateMass d 3000)
        (PhysicsEngine.calculateImpactVelocity 1000 90)).joules
        = 250 * Real.pi * (1000 ^ 2 + PhysicsEngine.escapeVelocity ^ 2) * d ^ (3 : ℕ) := by
    intro d
    rw [PhysicsEngine.calculateImpactEnergy_joules]
    unfold PhysicsEngine.calculateMass
    dsimp only
    linear_combination (250 * Real.pi * d ^ (3 : ℕ)) * hfv2
  have hJ1pos : (0 : ℝ) <
      (PhysicsEngine.calculateImpactEnergy (PhysicsEngine.calculateMass 1 3000)
        (PhysicsEngine.calculateImpactVelocity 1000 90)).joules := by
    rw [hJ 1]
    positivity
  have h1 := h 1 1000 90 one_pos (by norm_num) (by norm_num) (by norm_num)
    (PhysicsEngine.calculateCraterSize
      (PhysicsEngine.calculateImpactEnergy (PhysicsEngine.calculateMass 1 3000)
        (PhysicsEngine.calculateImpactVelocity 1000 90)).joules 90)
    (by rw [pipelineCrater_eq]; simp [Option.mem_def])
  have h16 := h 16 1000 90 (by norm_num) (by norm_num) (by norm_num) (by norm_num)
    (PhysicsEngine.calculateCraterSize
      (PhysicsEngine.calculateImpactEnergy (PhysicsEngine.calculateMass 16 3000)
        (PhysicsEngine.calculateImpactVelocity 1000 90)).joules 90)
    (by rw [pipelineCrater_eq]; simp [Option.mem_def])
  rw [calculateCraterSize_diameter, sin_ninety_deg] at h1 h16
  rw [Real.one_rpow] at h1 h16
  norm_num [Real.one_rpow] at h1 h16
  -- h1 : 1.8 * (J1 / 1e15) ^ 0.25 = k1
  -- h16 : 1.8 * (J16 / 1e15) ^ 0.25 = k1 * 16 ^ 0.78
  have h16J : (PhysicsEngine.calculateImpactEnergy (PhysicsEngine.calculateMass 16 3000)
        (PhysicsEngine.calculateImpactVelocity 1000 90)).joules
      = 4096 * (PhysicsEngine.calculateImpactEnergy (PhysicsEngine.calculateMass 1 3000)
        (PhysicsEngine.calculateImpactVelocity 1000 90)).joules := by
    rw [hJ 1, hJ 16]
    ring
  have hsplit : ((PhysicsEngine.calculateImpactEnergy (PhysicsEngine.calculateMass 16 3000)
        (PhysicsEngine.calculateImpactVelocity 1000 90)).joules / 1e15) ^ (0.25 : ℝ)
      = 8 * ((PhysicsEngine.calculateImpactEnergy (PhysicsEngine.calculateMass 1 3000)
        (PhysicsEngine.calculateImpactVelocity 1000 90)).joules / 1e15) ^ (0.25 : ℝ) := by
    rw [h16J]
    rw [show (4096 * (PhysicsEngine.calculateImpactEnergy (PhysicsEngine.calculateMass 1 3000)
        (PhysicsEngine.calculateImpactVelocity 1000 90)).joules / 1e15 : ℝ)
      = 4096 * ((PhysicsEngine.calculateImpactEnergy (PhysicsEngine.calculateMass 1 3000)
        (PhysicsEngine.calculateImpactVelocity 1000 90)).joules / 1e15) by ring]
    rw [Real.mul_rpow (by norm_num) (by positivity), rpow_fourth_4096]
  have hBpos : (0 : ℝ) <
      ((PhysicsEngine.calculateImpactEnergy (PhysicsEngine.calculateMass 1 3000)
        (PhysicsEngine.calculateImpactVelocity 1000 90)).joules / 1e15) ^ (0.25 : ℝ) :=
    Real.rpow_pos_of_pos (by positivity) _
  norm_num at hsplit hBpos
  rw [hsplit, ← h1] at h16
  -- h16 : 9/5 * (8 * B) = 9/5 * B * 16 ^ (39/50)
  have hX : (8 : ℝ) < (16 : ℝ) ^ ((39 : ℝ) / 50) := by
    have he : (16 : ℝ) ^ ((39 : ℝ) / 50) = (2 : ℝ) ^ (3.12 : ℝ) := by
      rw [show ((39 : ℝ) / 50) = (0.78 : ℝ) by norm_num]
      exact rpow_sixteen_078
    have hlt : (2 : ℝ) ^ ((3 : ℕ) : ℝ) < (2 : ℝ) ^ (3.12 : ℝ) :=
      Real.rpow_lt_rpow_of_exponent_lt (by norm_num) (by norm_num)
    rw [Real.rpow_natCast] at hlt
    norm_num at hlt
    linarith [he, hlt]
  nlinarith [h16, hBpos, hX]

/-- C3 amended: on every land impact the crater stage of the pipeline
returns diameter = 1.8 · (E/10^15)^0.25 · sin(θ)^(1/3) where E is the
pipeline impact energy in joules, together with depth = diameter/5 and
volume = π · (diameter/2)^2 · depth / 3. -/
theorem crater_formula {κ : Type}
    (cas : PhysicsEngine.Blast → PhysicsEngine.ImpactLocation →
      Option PhysicsEngine.Crater → κ)
    (p : PhysicsEngine.ImpactParams) (h : p.impactLocation.isOcean = false) :
    ∃ c, (PhysicsEngine.simulateImpact cas p).crater = some c ∧
      c.diameter = 1.8 * ((PhysicsEngine.simulateImpact cas p).energy.joules / 1e15) ^ (0.25 : ℝ)
          * Real.sin (p.angle * Real.pi / 180) ^ ((1 : ℝ) / 3) ∧
      c.depth = c.diameter / 5 ∧
      c.volume = Real.pi * (c.diameter / 2) ^ (2 : ℕ) * c.depth / 3 := by
  refine ⟨PhysicsEngine.calculateCraterSize
      (PhysicsEngine.calculateImpactEnergy (PhysicsEngine.calculateMass p.diameter p.density)
        (PhysicsEngine.calculateImpactVelocity p.velocity p.angle)).joules p.angle,
    ?_, rfl, rfl, rfl⟩
  simp [PhysicsEngine.simulateImpact, h]

/-- C3 witness: the amended theorem applied to a concrete land impact with
diameter 100 m, velocity 17000 m/s, angle 45°, density 3000 kg/m^3. -/
theorem crater_formula_witness :
    PhysicsEngine.landLocation.isOcean = false ∧
      ∃ c, (PhysicsEngine.simulateImpact (fun _ _ _ => ())
          ⟨100, 17000, 45, 3000, PhysicsEngine.landLocation⟩).crater = some c ∧
        c.diameter = 1.8 * ((PhysicsEngine.simulateImpact (fun _ _ _ => ())
            ⟨100, 17000, 45, 3000, PhysicsEngine.landLocation⟩).energy.joules / 1e15) ^ (0.25 : ℝ)
            * Real.sin ((45 : ℝ) * Real.pi / 180) ^ ((1 : ℝ) / 3) ∧
        c.depth = c.diameter / 5 ∧
        c.volume = Real.pi * (c.diameter / 2) ^ (2 : ℕ) * c.depth / 3 :=
  ⟨rfl, crater_formula (fun _ _ _ => ())
    ⟨100, 17000, 45, 3000, PhysicsEngine.landLocation⟩ rfl⟩

/-- C8 amended: the circle-overlap function realises the claimed case
analysis (0 beyond contact, π·min(r1,r2)^2 at centre hit or full
containment, the two-circle lens area otherwise), and the per-city
affected population is the overlap area times cityPopulation divided by
(π·cityRadius^2), rounded to the nearest integer as by Math.round. -/
theorem overlapArea_spec (d r1 r2 : ℝ) (hd : 0 ≤ d) (h1 : 0 < r1) (h2 : 0 < r2) :
    (d ≥ r1 + r2 → PopulationService.calculateOverlapArea d r1 r2 = 0) ∧
    ((d = 0 ∨ d + min r1 r2 ≤ max r1 r2) →
      PopulationService.calculateOverlapArea d r1 r2 = Real.pi * min r1 r2 ^ (2 : ℕ)) ∧
    (d ≠ 0 → d < r1 + r2 → ¬ (d + r2 ≤ r1) → ¬ (d + r1 ≤ r2) →
      PopulationService.calculateOverlapArea d r1 r2
        = r1 ^ 2 * Real.arccos ((d ^ 2 + r1 ^ 2 - r2 ^ 2) / (2 * d * r1))
          + r2 ^ 2 * Real.arccos ((d ^ 2 + r2 ^ 2 - r1 ^ 2) / (2 * d * r2))
          - 0.5 * Real.sqrt ((-d + r1 + r2) * (d + r1 - r2) * (d - r1 + r2) * (d + r1 + r2))) ∧
    (∀ population cityRadius : ℝ,
      PopulationService.cityAffectedPopulation d r1 population cityRadius
        = PopulationService.jsRound (PopulationService.calculateOverlapArea d r1 cityRadius
            * (population / (Real.pi * cityRadius ^ (2 : ℕ))))) := by
  refine ⟨?_, ?_, ?_, ?_⟩
  · intro hge
    have hne : d ≠ 0 := by
      intro h0
      rw [h0] at hge
      linarith
    unfold PopulationService.calculateOverlapArea
    rw [if_neg hne, if_pos hge]
  · intro hcase
    unfold PopulationService.calculateOverlapArea
    rcases eq_or_ne d 0 with rfl | hne
    · rw [if_pos rfl]
    · have hcont : d + min r1 r2 ≤ max r1 r2 := by
        rcases hcase with h0 | hc
        · exact absurd h0 hne
        · exact hc
      have hminpos : 0 < min r1 r2 := lt_min h1 h2
      have hmaxle : max r1 r2 ≤ r1 + r2 := max_le (by linarith) (by linarith)
      have hnge : ¬ (d ≥ r1 + r2) := by
        intro hge
        linarith
      rw [if_neg hne, if_neg hnge]
      rcases le_total r2 r1 with hle | hle
      · have hc3 : d + r2 ≤ r1 := by
          rw [min_eq_right hle, max_eq_left hle] at hcont
          exact hcont
        rw [if_pos hc3, min_eq_right hle]
        ring
      · by_cases hc3 : d + r2 ≤ r1
        · have hzero : d = 0 := le_antisymm (by linarith) hd
          exact absurd hzero hne
        · have hc4 : d + r1 ≤ r2 := by
            rw [min_eq_left hle, max_eq_right hle] at hcont
            exact hcont
          rw [if_neg hc3, if_pos hc4, min_eq_left hle]
          ring
  · intro hne hlt hn3 hn4
    unfold PopulationService.calculateOverlapArea
    rw [if_neg hne, if_neg (not_le.mpr hlt), if_neg hn3, if_neg hn4]
    dsimp only
    rw [show (d * d + r1 * r1 - r2 * r2) / (2 * d * r1)
        = (d ^ 2 + r1 ^ 2 - r2 ^ 2) / (2 * d * r1) by ring]
    rw [show (d * d + r2 * r2 - r1 * r1) / (2 * d * r2)
        = (d ^ 2 + r2 ^ 2 - r1 ^ 2) / (2 * d * r2) by ring]
    ring
  · intro population cityRadius
    unfold PopulationService.cityAffectedPopulation
    dsimp only
    congr 1
    ring

/-- C8 witness: the amended theorem applied at centre distance 0, blast
radius 1, city radius 2. -/
theorem overlapArea_spec_witness :
    (0 : ℝ) ≤ 0 ∧ (0 : ℝ) < 1 ∧ (0 : ℝ) < 2 ∧
    (((0 : ℝ) ≥ 1 + 2 → PopulationService.calculateOverlapArea 0 1 2 = 0) ∧
      (((0 : ℝ) = 0 ∨ (0 : ℝ) + min (1 : ℝ) 2 ≤ max (1 : ℝ) 2) →
        PopulationService.calculateOverlapArea 0 1 2 = Real.pi * min (1 : ℝ) 2 ^ (2 : ℕ)) ∧
      ((0 : ℝ) ≠ 0 → (0 : ℝ) < 1 + 2 → ¬ ((0 : ℝ) + 2 ≤ 1) → ¬ ((0 : ℝ) + 1 ≤ 2) →
        PopulationService.calculateOverlapArea 0 1 2
          = 1 ^ 2 * Real.arccos ((0 ^ 2 + 1 ^ 2 - 2 ^ 2) / (2 * 0 * 1))
            + 2 ^ 2 * Real.arccos ((0 ^ 2 + 2 ^ 2 - 1 ^ 2) / (2 * 0 * 2))
            - 0.5 * Real.sqrt ((-0 + 1 + 2) * (0 + 1 - 2) * (0 - 1 + 2) * (0 + 1 + 2))) ∧
      (∀ population cityRadius : ℝ,
        PopulationService.cityAffectedPopulation 0 1 population cityRadius
          = PopulationService.jsRound (PopulationService.calculateOverlapArea 0 1 cityRadius
              * (population / (Real.pi * cityRadius ^ (2 : ℕ)))))) :=
  ⟨by norm_num, by norm_num, by norm_num,
    overlapArea_spec 0 1 2 (by norm_num) (by norm_num) (by norm_num)⟩

/-- C8 counterexample: for the Tokyo city record (population 37400000,
radius 40 km) hit centrally by a blast disc of radius 0.3 km, the code
affected population is Math.round(2103.75) = 2104, not the exact product
2103.75 claimed, so the equality without rounding fails. -/
theorem cityAffectedPopulation_not_exact :
    PopulationService.cityAffectedPopulation 0 (3 / 10) 37400000 40
      ≠ PopulationService.calculateOverlapArea 0 (3 / 10) 40
          * (37400000 / (Real.pi * 40 ^ (2 : ℕ))) := by
  have hover : PopulationService.calculateOverlapArea 0 (3 / 10) 40
      = Real.pi * (3 / 10 : ℝ) ^ (2 : ℕ) := by
    unfold PopulationService.calculateOverlapArea
    rw [if_pos rfl, min_eq_left (by norm_num : (3 / 10 : ℝ) ≤ 40)]
  have hπ := Real.pi_ne_zero
  have harg : Real.pi * (3 / 10 : ℝ) ^ (2 : ℕ) * (37400000 / (Real.pi * 40 * 40))
      = 2103.75 := by
    field_simp
    ring
  have hlhs : PopulationService.cityAffectedPopulation 0 (3 / 10) 37400000 40 = 2104 := by
    unfold PopulationService.cityAffectedPopulation PopulationService.jsRound
    dsimp only
    rw [hover, harg]
    rw [show (2103.75 : ℝ) + 1 / 2 = 2104.25 by norm_num]
    rw [show ((2104 : ℝ)) = ((2104 : ℤ) : ℝ) by norm_num]
    congr 1
    rw [Int.floor_eq_iff]
    constructor <;> norm_num
  have hrhs : PopulationService.calculateOverlapArea 0 (3 / 10) 40
      * (37400000 / (Real.pi * 40 ^ (2 : ℕ))) = 2103.75 := by
    rw [hover]
    field_simp
    ring
  rw [hlhs, hrhs]
  norm_num
